import Mathlib

/-!
Verification of the SlackClone client (src/app.py) against its
natural-language specification.

The relevant parts of `app.py` are shallowly embedded below:

* messages are records; ISO-8601 `created_at` timestamps are abstracted
  to an integer number of seconds on a common timeline, so that the
  code's `abs((sm_ts - om_ts).total_seconds()) <= 10` becomes an
  integer comparison;
* Python's `str.strip()` is modelled by `strip`, which removes leading
  and trailing whitespace characters; Python's stable `sorted` is
  modelled by `List.mergeSort`, which is also stable;
* `st.session_state["optimistic"][cid]` (the per-conversation queue of
  locally-queued messages) is passed explicitly as a `List OptMsg`;
* fallible calls (database inserts, RPCs) are parameterised by their
  outcome, and side-effecting code additionally returns the list of
  external operations it performs, in order, so that temporal claims
  ("first appends ... only then inserts") are statements about traces;
* a raised `RuntimeError` is modelled by `Except.error`.
-/

namespace SlackClone

/-- Python's `str.strip()`: remove leading and trailing whitespace. -/
def strip (s : String) : String :=
  ⟨((s.data.dropWhile Char.isWhitespace).reverse.dropWhile Char.isWhitespace).reverse⟩

/-- A locally-queued ("optimistic") message, as built by
`add_optimistic_message` in app.py: a temp id, sender, content,
timestamp and a status among "sending" / "sent" / "failed". -/
structure OptMsg where
  id : String
  sender_id : String
  content : String
  created_at : Int
  status : String
deriving DecidableEq, Repr

/-- A server-confirmed message row as returned by `load_messages`
(`select id, sender_id, content, created_at`). -/
structure ServerMsg where
  id : String
  sender_id : String
  content : String
  created_at : Int
deriving DecidableEq, Repr

/-- The inner loop condition of `drop_delivered_optimistic`: the server
message has the same sender, equal stripped content, and a timestamp
within 10 seconds (absolute difference) of the queued message. -/
def matchesServer (sm : ServerMsg) (om : OptMsg) : Bool :=
  sm.sender_id == om.sender_id &&
  strip sm.content == strip om.content &&
  (sm.created_at - om.created_at).natAbs ≤ 10

/-- `drop_delivered_optimistic` from app.py: rebuilds the queue keeping a
message when its status is "failed", or when no server message matches
it (same sender + stripped content, within 10 seconds). -/
def drop_delivered_optimistic (queue : List OptMsg) (server_msgs : List ServerMsg) :
    List OptMsg :=
  queue.filter (fun om =>
    om.status == "failed" || !(server_msgs.any (fun sm => matchesServer sm om)))

/-- A message as it appears in the merged thread built by
`combined_messages`: a server row carries no status, an optimistic
message carries its own. -/
structure DispMsg where
  id : String
  sender_id : String
  content : String
  created_at : Int
  status : Option String
deriving DecidableEq, Repr

/-- View of a server message in the merged thread. -/
def ServerMsg.toDisp (m : ServerMsg) : DispMsg :=
  ⟨m.id, m.sender_id, m.content, m.created_at, none⟩

/-- View of an optimistic message in the merged thread. -/
def OptMsg.toDisp (m : OptMsg) : DispMsg :=
  ⟨m.id, m.sender_id, m.content, m.created_at, some m.status⟩

/-- `combined_messages` from app.py: first reconcile the optimistic
queue against the server messages, then merge the two lists and sort
them by `created_at` (Python's stable `sorted` with a timestamp key). -/
def combined_messages (queue : List OptMsg) (server_msgs : List ServerMsg) :
    List DispMsg :=
  let kept := drop_delivered_optimistic queue server_msgs
  (server_msgs.map ServerMsg.toDisp ++ kept.map OptMsg.toDisp).mergeSort
    (fun a b => decide (a.created_at ≤ b.created_at))

/-- `add_optimistic_message` from app.py: builds a message with a fresh
temp id, the given sender, stripped content, the current time and
status "sending", appends it to the conversation's queue, and returns
it. The fresh id and the clock reading are passed as parameters. -/
def add_optimistic_message (queue : List OptMsg) (temp_id sender_id content : String)
    (now : Int) : List OptMsg × OptMsg :=
  let msg : OptMsg := ⟨temp_id, sender_id, strip content, now, "sending"⟩
  (queue ++ [msg], msg)

/-- `mark_optimistic` from app.py: set the status of the first queued
message whose id equals `temp_id`, leaving everything else unchanged. -/
def mark_optimistic : List OptMsg → String → String → List OptMsg
  | [], _, _ => []
  | m :: ms, temp_id, new_status =>
    if m.id == temp_id then { m with status := new_status } :: ms
    else m :: mark_optimistic ms temp_id new_status

/-- Outcome of the `direct_messages` insert inside `send_message_to_db`:
it either succeeds or raises `APIError`. -/
inductive InsertOutcome
  | success
  | apiError
deriving DecidableEq, Repr

/-- `send_message_to_db` from app.py: inserts the stripped text and
returns `True`; on `APIError` returns `False`. -/
def send_message_to_db (outcome : InsertOutcome) : Bool :=
  match outcome with
  | .success => true
  | .apiError => false

/-- An externally visible step of the composer submit handler. -/
inductive ComposerEvent
  | appendOptimistic (msg : OptMsg)
  | dbInsert (conversation_id sender_id content : String)
  | markStatus (temp_id new_status : String)
deriving DecidableEq, Repr

/-- The composer form handler from app.py, for a submitted form:
`if sent and text.strip():` guards the whole block; inside it the code
appends an optimistic copy (`add_optimistic_message(cid, me,
text.strip())`), then persists (`send_message_to_db(cid, text)`, which
inserts `text.strip()`), then marks the optimistic copy "sent" or
"failed" according to the insert outcome. Returns the updated queue and
the ordered trace of events. -/
def composer_submit (queue : List OptMsg) (cid me text temp_id : String)
    (now : Int) (outcome : InsertOutcome) : List OptMsg × List ComposerEvent :=
  if strip text == "" then (queue, [])
  else
    let (q1, temp) := add_optimistic_message queue temp_id me (strip text) now
    let ok := send_message_to_db outcome
    let new_status := if ok then "sent" else "failed"
    (mark_optimistic q1 temp.id new_status,
     [ComposerEvent.appendOptimistic temp,
      ComposerEvent.dbInsert cid me (strip text),
      ComposerEvent.markStatus temp.id new_status])

/-- A row of the `friends` table, as the client sees it. -/
structure FriendRow where
  requester_id : String
  addressee_id : String
  status : String
deriving DecidableEq, Repr

/-- An externally visible operation of `send_friend_request`. -/
inductive FriendOp
  | rpcUpsertFriendRequest (a b : String)
  | insertFriends (requester addressee status : String)
  | selectFriends
deriving DecidableEq, Repr

/-- `send_friend_request` from app.py: call the `upsert_friend_request`
RPC; if that raises `APIError`, fall back to a plain insert of a
pending row. `friendsTable` is the current state of the friends table,
passed to record that the client's behaviour never consults it.
Returns the ordered trace of operations. -/
def send_friend_request (me other : String) (friendsTable : List FriendRow)
    (rpcRaisesAPIError : Bool) : List FriendOp :=
  if rpcRaisesAPIError then
    [FriendOp.rpcUpsertFriendRequest me other,
     FriendOp.insertFriends me other "pending"]
  else
    [FriendOp.rpcUpsertFriendRequest me other]

/-- An externally visible operation of the conversation wrappers. -/
inductive ConvOp
  | rpcGetOrCreateConversation (a b : String)
  | rpcCreateGroupConversation (creator : String) (members : List String)
      (conv_title : String)
  | insertConversationRow
deriving DecidableEq, Repr

/-- `get_or_create_conversation` from app.py: refuse a self-DM with a
`RuntimeError` before any remote call; otherwise invoke the
`get_or_create_conversation` RPC and raise `RuntimeError` when
`resp.data` is falsy, else return the data. `rpcData = none` models
falsy RPC data. The result comes with the ordered operation trace. -/
def get_or_create_conversation (me other : String) (rpcData : Option String) :
    Except String String × List ConvOp :=
  if other == me then
    (Except.error "self-conversation blocked in UI", [])
  else
    match rpcData with
    | none => (Except.error "RPC returned no data",
               [ConvOp.rpcGetOrCreateConversation me other])
    | some d => (Except.ok d, [ConvOp.rpcGetOrCreateConversation me other])

/-- `create_group` from app.py: invoke the `create_group_conversation`
RPC and raise `RuntimeError` when `resp.data` is falsy, else return the
data. The result comes with the ordered operation trace. -/
def create_group (me : String) (others : List String) (title : String)
    (rpcData : Option String) : Except String String × List ConvOp :=
  match rpcData with
  | none => (Except.error "RPC returned no data",
             [ConvOp.rpcCreateGroupConversation me others title])
  | some d => (Except.ok d, [ConvOp.rpcCreateGroupConversation me others title])

/-- A row of the `direct_messages` table. -/
structure DmRow where
  id : String
  conversation_id : String
  sender_id : String
  content : String
  created_at : Int
deriving DecidableEq, Repr

/-- The columns of a `direct_messages` row selected by `load_messages`. -/
def DmRow.toServerMsg (r : DmRow) : ServerMsg :=
  ⟨r.id, r.sender_id, r.content, r.created_at⟩

/-- The default `limit` argument of `load_messages`. -/
def load_messages_default_limit : Nat := 200

/-- The full ascending-order history of a conversation: the rows of
`direct_messages` with the given conversation id, ordered by
`created_at` ascending, projected to the selected columns. -/
def conversation_history (table : List DmRow) (conversation_id : String) :
    List ServerMsg :=
  (((table.filter (fun r => r.conversation_id == conversation_id)).mergeSort
      (fun a b => decide (a.created_at ≤ b.created_at))).map DmRow.toServerMsg)

/-- `load_messages` from app.py, together with the PostgREST semantics
of the query it issues over the table state: the ascending
`conversation_history`, truncated to the first `limit` rows. -/
def load_messages (table : List DmRow) (conversation_id : String) (limit : Nat) :
    List ServerMsg :=
  (conversation_history table conversation_id).take limit

/-- A Streamlit auth session, as consumed by the sign-in gate:
what matters to the gate is whether a user object is present. -/
structure Session where
  user : Option String
  access_token : String
  refresh_token : String
deriving DecidableEq, Repr

/-- An externally visible operation of the top-level script. -/
inductive AppOp
  | setPageConfig
  | renderHtml
  | createClient
  | loginForm
  | stop
  | tableOp (table : String)
  | storageOp (bucket : String)
  | rpcOp (rpc_name : String)
deriving DecidableEq, Repr

/-- Whether an operation touches a database table, the storage layer,
or a server-side procedure. -/
def AppOp.isDbOrStorage : AppOp → Bool
  | .tableOp _ => true
  | .storageOp _ => true
  | .rpcOp _ => true
  | _ => false

/-- The session the sign-in gate of app.py ends up testing: the stored
`st.session_state` session when present, otherwise whatever
`login_form` returned. -/
def effectiveSession (stored loginResult : Option Session) : Option Session :=
  match stored with
  | some s => some s
  | none => loginResult

/-- The top-level script of app.py (run with Supabase credentials
configured), embedded as the ordered trace of operations it performs.
`stored` is the session in `st.session_state`, `loginResult` what
`login_form` returns when it is invoked, and `rest` the trace of
everything after the sign-in gate (authed client, profile bootstrap,
data helpers, UI). `login_form` runs only when no session is stored;
execution reaches `rest` exactly when the effective session carries a
user, and otherwise the script stops at the gate. -/
def script_run (stored loginResult : Option Session) (rest : List AppOp) :
    List AppOp :=
  let pre := [AppOp.setPageConfig, AppOp.renderHtml, AppOp.createClient]
  match stored with
  | some s =>
    match s.user with
    | some _ => pre ++ rest
    | none => pre ++ [AppOp.stop]
  | none =>
    match loginResult with
    | some s =>
      match s.user with
      | some _ => pre ++ [AppOp.loginForm] ++ rest
      | none => pre ++ [AppOp.loginForm, AppOp.stop]
    | none => pre ++ [AppOp.loginForm, AppOp.stop]

end SlackClone

namespace SlackClone

/-- Helper: the head of a `dropWhile p` result never satisfies `p`. -/
theorem dropWhile_head_false {α : Type} (p : α → Bool) (l : List α) {x : α}
    (h : (l.dropWhile p).head? = some x) : p x = false := by
  have hm := List.head?_dropWhile_not p l
  rw [h] at hm
  exact hm

/-- Helper: a list whose head fails `p` is unchanged by `dropWhile p`. -/
theorem dropWhile_eq_self_of_head {α : Type} (p : α → Bool) (l : List α)
    (h : ∀ x, l.head? = some x → p x = false) : l.dropWhile p = l := by
  cases l with
  | nil => rfl
  | cons a t =>
    have := h a rfl
    simp [List.dropWhile_cons, this]

/-- Helper: `dropWhile` is idempotent. -/
theorem dropWhile_dropWhile {α : Type} (p : α → Bool) (l : List α) :
    (l.dropWhile p).dropWhile p = l.dropWhile p := by
  apply dropWhile_eq_self_of_head
  intro x hx
  exact dropWhile_head_false p l hx

/-- Helper: stripping is idempotent, like Python's `str.strip()`. -/
theorem strip_strip (s : String) : strip (strip s) = strip s := by
  unfold strip
  congr 1
  set A := s.data.dropWhile Char.isWhitespace with hA
  set B := A.reverse.dropWhile Char.isWhitespace with hB
  have h1 : B.reverse.dropWhile Char.isWhitespace = B.reverse := by
    apply dropWhile_eq_self_of_head
    intro x hx
    rw [List.head?_reverse] at hx
    have hBne : B ≠ [] := by
      intro hnil
      rw [hnil] at hx
      simp at hx
    have hlast : B.getLast? = A.reverse.getLast? := by
      obtain ⟨pre, hpre⟩ := List.dropWhile_suffix (l := A.reverse) Char.isWhitespace
      rw [← hB] at hpre
      rw [← hpre, List.getLast?_append]
      cases hBl : B.getLast? with
      | none => exact absurd (List.getLast?_eq_none_iff.mp hBl) hBne
      | some y => simp
    rw [hlast, List.getLast?_reverse] at hx
    exact dropWhile_head_false Char.isWhitespace s.data (hA ▸ hx)
  rw [h1, List.reverse_reverse, dropWhile_dropWhile]

end SlackClone

namespace SlackClone

/-- C1: a non-"failed" queued message is removed by
`drop_delivered_optimistic` if and only if some server message has the
same `sender_id`, equal whitespace-stripped content, and a `created_at`
within 10 seconds of the queued message's timestamp. -/
theorem C1_reconciliation_drop_iff
    (queue : List OptMsg) (server : List ServerMsg) (om : OptMsg)
    (hmem : om ∈ queue) (hnf : om.status ≠ "failed") :
    om ∉ drop_delivered_optimistic queue server ↔
      ∃ sm ∈ server, sm.sender_id = om.sender_id ∧
        strip sm.content = strip om.content ∧
        (sm.created_at - om.created_at).natAbs ≤ 10 := by
  have hbf : (om.status == "failed") = false := by
    simpa using hnf
  simp only [drop_delivered_optimistic, List.mem_filter, hmem, true_and, not_and,
    Bool.or_eq_true, hbf, Bool.false_or, Bool.not_eq_true', List.any_eq_false,
    matchesServer, Bool.and_eq_true, beq_iff_eq, decide_eq_true_eq, not_forall]
  constructor
  · intro h
    rcases h with ⟨sm, hsm, hc⟩
    rw [Classical.not_not] at hc
    exact ⟨sm, hsm, hc.1.1, hc.1.2, hc.2⟩
  · rintro ⟨sm, hsm, h1, h2, h3⟩
    exact ⟨sm, hsm, by rw [Classical.not_not]; exact ⟨⟨h1, h2⟩, h3⟩⟩

/-- Witness for C1 at a concrete input: a "sending" message whose
content matches a server row (up to stripping) 5 seconds later is
removed from the queue. -/
theorem C1_witness :
    (⟨"tmp-1", "alice", "hi", 100, "sending"⟩ : OptMsg) ∉
      drop_delivered_optimistic
        [⟨"tmp-1", "alice", "hi", 100, "sending"⟩]
        [⟨"m1", "alice", " hi ", 105⟩] :=
  (C1_reconciliation_drop_iff _ _ _ (by decide) (by decide)).mpr
    ⟨⟨"m1", "alice", " hi ", 105⟩, by decide⟩

/-- C8: a queued message with status "failed" is never removed by
`drop_delivered_optimistic`, whatever the server messages are. -/
theorem C8_failed_never_dropped
    (queue : List OptMsg) (server : List ServerMsg) (om : OptMsg)
    (hmem : om ∈ queue) (hf : om.status = "failed") :
    om ∈ drop_delivered_optimistic queue server := by
  unfold drop_delivered_optimistic
  rw [List.mem_filter]
  exact ⟨hmem, by simp [hf]⟩

/-- Witness for C8 at a concrete input: a "failed" message survives
reconciliation even when a server row matches its sender, content and
time window exactly. -/
theorem C8_witness :
    (⟨"tmp-2", "bob", "yo", 50, "failed"⟩ : OptMsg) ∈
      drop_delivered_optimistic
        [⟨"tmp-2", "bob", "yo", 50, "failed"⟩]
        [⟨"m2", "bob", "yo", 50⟩] :=
  C8_failed_never_dropped _ _ _ (by decide) (by decide)

/-- C4: `combined_messages` returns exactly the server messages plus
the locally-queued optimistic messages that survive reconciliation — a
permutation of their concatenation — sorted in nondecreasing order of
`created_at`. -/
theorem C4_combined_messages_merge_sorted
    (queue : List OptMsg) (server : List ServerMsg) :
    (combined_messages queue server).Perm
      (server.map ServerMsg.toDisp ++
        (drop_delivered_optimistic queue server).map OptMsg.toDisp) ∧
    (combined_messages queue server).Pairwise
      (fun a b => a.created_at ≤ b.created_at) := by
  constructor
  · exact List.mergeSort_perm _ _
  · have h : ((server.map ServerMsg.toDisp ++
        (drop_delivered_optimistic queue server).map OptMsg.toDisp).mergeSort
          (fun a b => decide (a.created_at ≤ b.created_at))).Pairwise
            (fun a b : DispMsg => decide (a.created_at ≤ b.created_at) = true) :=
      List.sorted_mergeSort
        (fun a b c hab hbc => by
          simp only [decide_eq_true_eq] at *
          omega)
        (fun a b => by
          simp only [Bool.or_eq_true, decide_eq_true_eq]
          omega)
        _
    exact h.imp (fun hab => by simpa using hab)

/-- C3: every call of `send_friend_request` invokes the server-side
`upsert_friend_request` RPC (the first operation of its trace), and the
client performs no friend-request deduplication or idempotency logic of
its own: the trace never reads the friends table, and it is entirely
independent of the friends table's contents. -/
theorem C3_friend_request_delegated
    (me other : String) (t₁ t₂ : List FriendRow) (rpcRaisesAPIError : Bool) :
    (send_friend_request me other t₁ rpcRaisesAPIError).head? =
      some (FriendOp.rpcUpsertFriendRequest me other) ∧
    FriendOp.selectFriends ∉ send_friend_request me other t₁ rpcRaisesAPIError ∧
    send_friend_request me other t₁ rpcRaisesAPIError =
      send_friend_request me other t₂ rpcRaisesAPIError := by
  unfold send_friend_request
  cases rpcRaisesAPIError <;> simp

/-- Counterexample for C5: with current user "alice", calling
`get_or_create_conversation` on "alice" herself raises `RuntimeError`
even though the remote procedure would return data ("conv-1"), so
"raises a RuntimeError exactly when the procedure returns no data"
fails at this input. -/
theorem C5_counterexample :
    ¬ ((∃ e, (get_or_create_conversation "alice" "alice" (some "conv-1")).1 =
        Except.error e) ↔ (some "conv-1" = (none : Option String))) := by
  intro h
  have := h.mp ⟨"self-conversation blocked in UI", rfl⟩
  simp at this

/-- C5 (amended): conversation creation is delegated to the server —
both wrappers obtain the conversation id solely from their remote
procedure and insert no conversation rows; `create_group` raises
`RuntimeError` exactly when the procedure returns no data;
`get_or_create_conversation` does the same whenever the other id
differs from the current user's, while with the current user's own id
it raises `RuntimeError` without invoking the procedure. -/
theorem C5_conversation_creation_delegated
    (me other title : String) (others : List String)
    (dmData groupData : Option String) :
    ConvOp.insertConversationRow ∉ (get_or_create_conversation me other dmData).2 ∧
    ConvOp.insertConversationRow ∉ (create_group me others title groupData).2 ∧
    ((∃ e, (create_group me others title groupData).1 = Except.error e) ↔
      groupData = none) ∧
    (∀ d, groupData = some d →
      (create_group me others title groupData).1 = Except.ok d) ∧
    (other ≠ me →
      (((∃ e, (get_or_create_conversation me other dmData).1 = Except.error e) ↔
          dmData = none) ∧
        (∀ d, dmData = some d →
          (get_or_create_conversation me other dmData).1 = Except.ok d))) ∧
    (other = me →
      ((∃ e, (get_or_create_conversation me other dmData).1 = Except.error e) ∧
        (get_or_create_conversation me other dmData).2 = [])) := by
  unfold get_or_create_conversation create_group
  by_cases hom : other = me
  · have hb : (other == me) = true := by simpa using hom
    cases dmData <;> cases groupData <;> simp [hb, hom]
  · have hb : (other == me) = false := by simpa using hom
    cases dmData <;> cases groupData <;> simp [hb, hom]

/-- Witness for C5 at a concrete input: for a DM with a distinct user,
when the procedure returns "conv-1" the wrapper returns it without a
`RuntimeError`. -/
theorem C5_witness :
    (get_or_create_conversation "alice" "bob" (some "conv-1")).1 =
      Except.ok "conv-1" :=
  ((C5_conversation_creation_delegated "alice" "bob" "" [] (some "conv-1")
      none).2.2.2.2.1 (by decide)).2 "conv-1" rfl

/-- C10: calling `get_or_create_conversation` with the current user's
own id raises `RuntimeError` (whatever the procedure would have
answered) and performs no remote operation at all, so no conversation
is created on this path. -/
theorem C10_self_conversation_blocked (me : String) (rpcData : Option String) :
    (∃ e, (get_or_create_conversation me me rpcData).1 = Except.error e) ∧
    (get_or_create_conversation me me rpcData).2 = [] := by
  unfold get_or_create_conversation
  simp

/-- C7: when no signed-in user is available (no stored session and
`login_form` yields none, or the available session carries no user),
the script stops at the sign-in gate: its trace ends with `stop` and
contains no table, storage or RPC operation, whatever the post-gate
part of the script would have done. -/
theorem C7_no_db_before_signin
    (stored loginResult : Option Session) (rest : List AppOp)
    (hno : ∀ s, effectiveSession stored loginResult = some s → s.user = none) :
    ((script_run stored loginResult rest).all (fun op => !op.isDbOrStorage)) = true ∧
    (script_run stored loginResult rest).getLast? = some AppOp.stop := by
  unfold script_run
  cases stored with
  | some s =>
    have hu : s.user = none := hno s rfl
    simp [hu, AppOp.isDbOrStorage]
  | none =>
    cases loginResult with
    | some s =>
      have hu : s.user = none := hno s rfl
      simp [hu, AppOp.isDbOrStorage]
    | none => simp [AppOp.isDbOrStorage]

/-- Witness for C7 at a concrete input: with no stored session and a
login form that returns nothing, the script performs no table, storage
or RPC operation and stops, even though the post-gate code would have
read the profiles table. -/
theorem C7_witness :
    ((script_run none none [AppOp.tableOp "profiles"]).all
      (fun op => !op.isDbOrStorage)) = true ∧
    (script_run none none [AppOp.tableOp "profiles"]).getLast? =
      some AppOp.stop :=
  C7_no_db_before_signin none none [AppOp.tableOp "profiles"]
    (fun s h => by simp [effectiveSession] at h)

/-- Witness for C4 at a concrete input: the merged thread of one kept
"failed" message and one server message is a permutation of their
concatenation. -/
theorem C4_witness :
    (combined_messages [⟨"tmp-3", "eve", "x", 5, "failed"⟩]
        [⟨"m3", "eve", "y", 1⟩]).Perm
      ([⟨"m3", "eve", "y", 1⟩].map ServerMsg.toDisp ++
        (drop_delivered_optimistic [⟨"tmp-3", "eve", "x", 5, "failed"⟩]
          [⟨"m3", "eve", "y", 1⟩]).map OptMsg.toDisp) :=
  (C4_combined_messages_merge_sorted [⟨"tmp-3", "eve", "x", 5, "failed"⟩]
    [⟨"m3", "eve", "y", 1⟩]).1

/-- Witness for C3 at a concrete input: even when the RPC raises
`APIError` and the friends table already holds a pending row, the first
operation of the call is the `upsert_friend_request` RPC. -/
theorem C3_witness :
    (send_friend_request "alice" "bob" [⟨"alice", "bob", "pending"⟩]
      true).head? = some (FriendOp.rpcUpsertFriendRequest "alice" "bob") :=
  (C3_friend_request_delegated "alice" "bob" [⟨"alice", "bob", "pending"⟩]
    [] true).1

/-- Witness for C10 at a concrete input: a self-DM attempt performs no
remote operation even though the procedure would have returned data. -/
theorem C10_witness :
    (get_or_create_conversation "alice" "alice" (some "conv-9")).2 = [] :=
  (C10_self_conversation_blocked "alice" (some "conv-9")).2

/-- Helper: marking a freshly-appended message updates exactly that
message and nothing else in the queue. -/
theorem mark_optimistic_append_fresh (queue : List OptMsg) (m : OptMsg)
    (new_status : String) (hfresh : ∀ x ∈ queue, x.id ≠ m.id) :
    mark_optimistic (queue ++ [m]) m.id new_status =
      queue ++ [{ m with status := new_status }] := by
  induction queue with
  | nil => simp [mark_optimistic]
  | cons a t ih =>
    have ha : (a.id == m.id) = false := by
      simpa using hfresh a (List.mem_cons_self a t)
    simp only [List.cons_append, mark_optimistic, ha, Bool.false_eq_true,
      if_false, List.cons.injEq, true_and]
    exact ih (fun x hx => hfresh x (List.mem_cons_of_mem a hx))

/-- C2: after the send attempt for a submitted composer message
(non-empty stripped text, fresh temp id), the locally-queued message's
status is among "sent" / "failed" / "retryable"; it is "sent" exactly
when the insert succeeded and "failed" exactly when the insert raised
`APIError`. -/
theorem C2_status_after_send_attempt
    (queue : List OptMsg) (cid me text temp_id : String) (now : Int)
    (outcome : InsertOutcome)
    (hne : strip text ≠ "") (hfresh : ∀ x ∈ queue, x.id ≠ temp_id) :
    ∃ m : OptMsg,
      (composer_submit queue cid me text temp_id now outcome).1 = queue ++ [m] ∧
      m.id = temp_id ∧
      (m.status = "sent" ∨ m.status = "failed" ∨ m.status = "retryable") ∧
      (m.status = "sent" ↔ outcome = InsertOutcome.success) ∧
      (m.status = "failed" ↔ outcome = InsertOutcome.apiError) := by
  have hg : (strip text == "") = false := by simpa using hne
  have hmark := mark_optimistic_append_fresh queue
    ⟨temp_id, me, strip (strip text), now, "sending"⟩
    (if send_message_to_db outcome then "sent" else "failed") hfresh
  refine ⟨⟨temp_id, me, strip (strip text), now,
    if send_message_to_db outcome then "sent" else "failed"⟩, ?_, rfl, ?_, ?_, ?_⟩
  · simp only [composer_submit, hg, Bool.false_eq_true, if_false,
      add_optimistic_message]
    exact hmark
  · cases outcome <;> simp [send_message_to_db]
  · cases outcome <;> simp [send_message_to_db]
  · cases outcome <;> simp [send_message_to_db]

/-- Witness for C2 at a concrete input: a successful insert leaves the
queued copy of " hi " marked "sent". -/
theorem C2_witness :
    ∃ m : OptMsg,
      (composer_submit [] "c1" "alice" " hi " "tmp-1" 7
        InsertOutcome.success).1 = [] ++ [m] ∧
      m.id = "tmp-1" ∧
      (m.status = "sent" ∨ m.status = "failed" ∨ m.status = "retryable") ∧
      (m.status = "sent" ↔ InsertOutcome.success = InsertOutcome.success) ∧
      (m.status = "failed" ↔ InsertOutcome.success = InsertOutcome.apiError) :=
  C2_status_after_send_attempt [] "c1" "alice" " hi " "tmp-1" 7
    InsertOutcome.success (by decide) (by simp)

/-- C6: on a submitted composer form whose stripped text is non-empty,
the handler first appends to the conversation's local queue an
optimistic message with status "sending", sender the current user and
content the stripped text, and only afterwards attempts the database
insert; when the stripped text is empty, the queue is unchanged and no
insert is attempted. -/
theorem C6_composer_append_then_insert
    (queue : List OptMsg) (cid me text temp_id : String) (now : Int)
    (outcome : InsertOutcome) :
    (strip text ≠ "" →
      ∃ msg : OptMsg,
        msg.status = "sending" ∧ msg.sender_id = me ∧
        msg.content = strip text ∧
        (composer_submit queue cid me text temp_id now outcome).2 =
          [ComposerEvent.appendOptimistic msg,
           ComposerEvent.dbInsert cid me (strip text),
           ComposerEvent.markStatus temp_id
             (if send_message_to_db outcome then "sent" else "failed")]) ∧
    (strip text = "" →
      (composer_submit queue cid me text temp_id now outcome).1 = queue ∧
      (composer_submit queue cid me text temp_id now outcome).2 = []) := by
  constructor
  · intro hne
    have hg : (strip text == "") = false := by simpa using hne
    refine ⟨⟨temp_id, me, strip (strip text), now, "sending"⟩, rfl, rfl,
      strip_strip text, ?_⟩
    simp [composer_submit, hg, add_optimistic_message]
  · intro he
    have hg : (strip text == "") = true := by simpa using he
    simp [composer_submit, hg]

/-- Witness for C6 at a concrete input: submitting " hi " appends a
"sending" copy with the stripped content before the insert is
attempted. -/
theorem C6_witness :
    ∃ msg : OptMsg,
      msg.status = "sending" ∧ msg.sender_id = "alice" ∧
      msg.content = strip " hi " ∧
      (composer_submit [] "c1" "alice" " hi " "tmp-1" 7
        InsertOutcome.apiError).2 =
        [ComposerEvent.appendOptimistic msg,
         ComposerEvent.dbInsert "c1" "alice" (strip " hi "),
         ComposerEvent.markStatus "tmp-1"
           (if send_message_to_db InsertOutcome.apiError then "sent"
            else "failed")] :=
  (C6_composer_append_then_insert [] "c1" "alice" " hi " "tmp-1" 7
    InsertOutcome.apiError).1 (by decide)

/-- Helper: the full conversation history is sorted by `created_at`. -/
theorem conversation_history_sorted (table : List DmRow) (cid : String) :
    (conversation_history table cid).Pairwise
      (fun a b => a.created_at ≤ b.created_at) := by
  unfold conversation_history
  rw [List.pairwise_map]
  have h : ((table.filter (fun r => r.conversation_id == cid)).mergeSort
      (fun a b => decide (a.created_at ≤ b.created_at))).Pairwise
        (fun a b : DmRow => decide (a.created_at ≤ b.created_at) = true) :=
    List.sorted_mergeSort
      (fun a b c hab hbc => by
        simp only [decide_eq_true_eq] at *
        omega)
      (fun a b => by
        simp only [Bool.or_eq_true, decide_eq_true_eq]
        omega)
      _
  exact h.imp (fun hab => by simpa [DmRow.toServerMsg] using hab)

/-- C9: `load_messages` returns at most `limit` messages (the default
limit is 200); they are the first `limit` entries of the conversation's
ascending history, sorted by `created_at`; every returned message was
created no later than every omitted one, and as soon as the
conversation holds more rows than the limit some messages are indeed
omitted — the newest ones. -/
theorem C9_load_messages_truncates_to_earliest
    (table : List DmRow) (cid : String) (limit : Nat) :
    (load_messages table cid limit).length ≤ limit ∧
    load_messages table cid limit = (conversation_history table cid).take limit ∧
    (load_messages table cid limit).Pairwise
      (fun a b => a.created_at ≤ b.created_at) ∧
    (∀ x ∈ load_messages table cid limit,
      ∀ y ∈ (conversation_history table cid).drop limit,
        x.created_at ≤ y.created_at) ∧
    ((table.filter (fun r => r.conversation_id == cid)).length > limit →
      (conversation_history table cid).drop limit ≠ []) ∧
    load_messages_default_limit = 200 := by
  have hsorted := conversation_history_sorted table cid
  have hsplit := List.take_append_drop limit (conversation_history table cid)
  have hpair : ∀ x ∈ (conversation_history table cid).take limit,
      ∀ y ∈ (conversation_history table cid).drop limit,
        x.created_at ≤ y.created_at := by
    rw [← hsplit] at hsorted
    exact (List.pairwise_append.mp hsorted).2.2
  refine ⟨?_, rfl, ?_, ?_, ?_, rfl⟩
  · exact List.length_take_le limit _
  · exact hsorted.sublist (List.take_sublist limit _)
  · exact hpair
  · intro hgt
    rw [ne_eq, List.drop_eq_nil_iff]
    unfold conversation_history
    simp only [List.length_map, List.length_mergeSort]
    omega

/-- Witness for C9 at a concrete input: with limit 1 over a
two-message conversation, the returned message was created no later
than the omitted one. -/
theorem C9_witness :
    (⟨"m1", "u", "a", 1⟩ : ServerMsg).created_at ≤
      (⟨"m2", "u", "b", 2⟩ : ServerMsg).created_at :=
  (C9_load_messages_truncates_to_earliest
      [⟨"m1", "c", "u", "a", 1⟩, ⟨"m2", "c", "u", "b", 2⟩] "c" 1).2.2.2.1
    ⟨"m1", "u", "a", 1⟩
    (by simp [load_messages, conversation_history, List.mergeSort, List.merge,
      DmRow.toServerMsg])
    ⟨"m2", "u", "b", 2⟩
    (by simp [conversation_history, List.mergeSort, List.merge,
      DmRow.toServerMsg])

end SlackClone
